import Mathlib

/-!
Shallow embedding of the request-admission pipeline of the turbolearn-ai
repository: the Gatekeeper (src/lib/server/security.ts, verifyUser), the
Quota Accountant and History Window Builder inside the submitTurn handler
(src/app/api/ask/route.ts, POST), the read-only quota endpoint
(src/app/api/quota/route.ts, GET), and the client payload construction
(src/app/page.tsx, streamAnswer).

Modelling conventions:
  - Redis and Firestore are total maps passed as explicit state; a daily
    usage counter that is absent reads as 0 (redis GET returns null and
    parseInt of a stored decimal string round-trips, INCR never stores 0).
  - JavaScript falsiness of strings is modelled explicitly: the empty
    string is falsy, every other string truthy.
  - JavaScript String.prototype.trim is modelled by String.trim over the
    ASCII whitespace characters, which covers every string the claims use.
  - Thrown JavaScript errors are modelled as Except values; each catch
    block is modelled at the exact place it sits in the source, including
    the cache-read try/catch in verifyUser that surrounds the cached
    permission check.
-/

/-- JavaScript x || d for strings: the empty string is falsy. -/
def jsOr : Option String → String → String
  | none, d => d
  | some s, d => if s = "" then d else s

/-- JavaScript s || d for two plain strings. -/
def jsOrStr (s d : String) : String :=
  if s = "" then d else s

/-- JavaScript truthiness of an optional string value. -/
def jsTruthy : Option String → Bool
  | none => false
  | some s => s != ""

/-- Helper for the substring test: does the second list start with the first. -/
def listStartsWith : List Char → List Char → Bool
  | [], _ => true
  | _ :: _, [] => false
  | a :: as, b :: bs => a == b && listStartsWith as bs

/-- Helper for the substring test: does the second list contain the first. -/
def listContainsSub (needle : List Char) : List Char → Bool
  | [] => listStartsWith needle []
  | h :: t => listStartsWith needle (h :: t) || listContainsSub needle t

/-- JavaScript String.prototype.includes(needle) on hay. -/
def strContains (hay needle : String) : Bool :=
  listContainsSub needle.toList hay.toList

/-- JavaScript String.prototype.trim, over the ASCII whitespace set. -/
def jsTrim (s : String) : String :=
  ⟨((s.data.dropWhile Char.isWhitespace).reverse.dropWhile Char.isWhitespace).reverse⟩

/-- JavaScript String.prototype.startsWith. -/
def jsStartsWith (s pre : String) : Bool :=
  listStartsWith pre.data s.data

/-- Raw Firestore user document fields read by the pipeline.
Absent and null fields are both modelled as none, matching how the code
reads them only through the JS operators two-pipe-or and two-question-marks
and through typeof checks. -/
structure RawProfile where
  status : Option String
  role : Option String
  tier : Option String
  customQuota : Option Int
deriving DecidableEq, Repr

/-- A user record as returned by verifyUser and as stored in the Redis
profile cache. The cache holds arbitrary JSON, so every field is optional;
the slow-path normalization produces concrete values for tier, customQuota
and uid. -/
structure UserData where
  status : Option String
  role : Option String
  tier : Option String
  customQuota : Option Int
  uid : Option String
deriving DecidableEq, Repr

/-- The three error values thrown by verifyUser in
src/lib/server/security.ts. -/
inductive AuthError
  | noUserId
  | accessDenied
  | userNotFound
deriving DecidableEq, Repr

/-- The exact message string of each thrown error, used by the catch
blocks of both endpoints to classify the failure. -/
def AuthError.message : AuthError → String
  | .noUserId => "Unauthorized: No User ID"
  | .accessDenied => "Access Denied: Account not approved."
  | .userNotFound => "User not found in database."

/-- The access-control predicate of security.ts: the negation of
status !== approved AND role !== admin. -/
def isAllowed (status role : Option String) : Bool :=
  status == some "approved" || role == some "admin"

/-- Redis profile-cache key for a user id. -/
def profileKey (userId : String) : String :=
  "user_profile:" ++ userId

/-- Redis profile cache: key to cached JSON user record. -/
def Cache : Type := String → Option UserData

/-- Firestore users collection: user id to raw document. -/
def Store : Type := String → Option RawProfile

/-- Redis daily usage counters: key to integer value, 0 meaning absent. -/
def Counters : Type := String → Nat

/-- Result of one verifyUser call: the returned value or thrown error, the
profile cache after the call, and how many Firestore document reads the
call performed. -/
structure VerifyResult where
  result : Except AuthError UserData
  cache : Cache
  storeReads : Nat

/-- Slow path of verifyUser (steps 2 to 4 of security.ts): one Firestore
read, the access check on the raw document, then normalization and the
cache write, which happens only after the check has passed. -/
def fetchFromStore (userId : String) (cache : Cache) (store : Store) : VerifyResult :=
  match store userId with
  | none => ⟨Except.error AuthError.userNotFound, cache, 1⟩
  | some raw =>
    if isAllowed raw.status raw.role then
      let u : UserData :=
        { status := raw.status
          role := raw.role
          tier := some (jsOr raw.tier "free")
          customQuota := some (raw.customQuota.getD 50)
          uid := some userId }
      ⟨Except.ok u, fun k => if k = profileKey userId then some u else cache k, 1⟩
    else
      ⟨Except.error AuthError.accessDenied, cache, 1⟩

/-- verifyUser of src/lib/server/security.ts. The fast path reads the
cache inside a try block; a cached record that fails the permission check
throws Access Denied there, but that throw is caught by the same catch
that handles Redis read failures, so execution falls through to the
Firestore slow path instead of propagating the denial. -/
def verifyUser (userId : String) (cache : Cache) (store : Store) : VerifyResult :=
  if userId = "" then
    ⟨Except.error AuthError.noUserId, cache, 0⟩
  else
    match cache (profileKey userId) with
    | some cached =>
      if isAllowed cached.status cached.role then
        ⟨Except.ok cached, cache, 0⟩
      else
        fetchFromStore userId cache store
    | none => fetchFromStore userId cache store

example :
    (verifyUser "u1" (fun _ => none)
      (fun id => if id = "u1" then
        some ⟨some "approved", some "user", none, none⟩ else none)).result =
    Except.ok ⟨some "approved", some "user", some "free", some 50, some "u1"⟩ := by
  rfl

/-- One typed content block of a chat message, as produced by the client:
a text block or an image block carrying the image payload string. -/
inductive Block
  | text (t : String)
  | image (i : String)
deriving DecidableEq, Repr

/-- JavaScript c.text || empty string: an image block has no text field. -/
def Block.textOf : Block → String
  | .text t => t
  | .image _ => ""

/-- JavaScript c.type === text. -/
def Block.isText : Block → Bool
  | .text _ => true
  | .image _ => false

/-- Message content: a plain string or a list of typed blocks, matching
the union in the AskSchema of src/app/api/ask/route.ts. -/
inductive Content
  | str (s : String)
  | blocks (bs : List Block)
deriving DecidableEq, Repr

/-- One message of the submitTurn body after schema validation. -/
structure ServerMsg where
  role : String
  content : Content
deriving DecidableEq, Repr

/-- The userText computation of the google/deepseek branch: for block
content, map each block to c.text || empty and join with no separator;
for string content, the string itself. -/
def contentText : Content → String
  | .str s => s
  | .blocks bs => String.join (bs.map Block.textOf)

/-- JavaScript Array.prototype.map with the element index, as used by the
message-formatting step. The first argument of f is the index. -/
def mapFrom {α β : Type} (f : Nat → α → β) : Nat → List α → List β
  | _, [] => []
  | i, a :: as => f i a :: mapFrom f (i + 1) as

/-- The per-message transformation of step 6 of the ask route. n is the
length of the message list, i the index of this message. For google and
deepseek, the newly supplied image is attached to the message only when it
is the last one, its role is user and the image value is truthy; groq
flattens block content to the newline-joined text blocks and never
receives an image block. -/
def transformMsg (provider : String) (image : Option String) (n i : Nat)
    (m : ServerMsg) : ServerMsg :=
  if provider == "google" || provider == "deepseek" then
    match image with
    | some img =>
      if img != "" && i + 1 == n && m.role == "user" then
        { role := "user"
          content := Content.blocks
            [Block.text (jsOrStr (contentText m.content) " "), Block.image img] }
      else m
    | none => m
  else
    match m.content with
    | .str _ => m
    | .blocks bs =>
      { m with
          content := Content.str
            (String.intercalate "\n" ((bs.filter Block.isText).map Block.textOf)) }

/-- The sanitization filter of step 6: drop a message whose content is a
falsy string, a whitespace-only string, or an empty block list. A JS
array is always truthy, so block lists are dropped only by the explicit
length check. -/
def keepMsg (m : ServerMsg) : Bool :=
  match m.content with
  | .str s => !(s == "") && !(jsTrim s == "")
  | .blocks bs => !bs.isEmpty

/-- The message-formatting map of step 6 applied to the full history.
Step 5 of the route sets recentMessages to the unsliced messages array for
every provider (the slice of the last 15 was removed), so the map runs
over the whole input list. -/
def transformAll (provider : String) (image : Option String)
    (msgs : List ServerMsg) : List ServerMsg :=
  mapFrom (transformMsg provider image msgs.length) 0 msgs

/-- coreMessages of the ask route: provider-specific transformation of the
full history followed by the sanitization filter. -/
def coreMessages (provider : String) (image : Option String)
    (msgs : List ServerMsg) : List ServerMsg :=
  (transformAll provider image msgs).filter keepMsg

/-- The parsed body of one submitTurn request. -/
structure AskReq where
  messages : List ServerMsg
  provider : String
  image : Option String
  userId : String
deriving Repr

/-- The provider enum of the AskSchema. -/
def validProvider (p : String) : Bool :=
  p == "google" || p == "groq" || p == "deepseek"

/-- Schema bound on one message: string content is capped at 100000
characters, block content passes as is. -/
def validMsg (m : ServerMsg) : Bool :=
  match m.content with
  | .str s => s.length ≤ 100000
  | .blocks _ => true

/-- The AskSchema safeParse outcome: every message within bounds, the
provider in the enum, and a nonempty userId. -/
def validRequest (r : AskReq) : Bool :=
  r.messages.all validMsg && validProvider r.provider && r.userId != ""

/-- The shared external state the two endpoints read and write: the Redis
profile cache, the Firestore users collection and the Redis daily usage
counters. -/
structure SysState where
  cache : Cache
  store : Store
  counters : Counters

/-- The Redis key of the daily usage counter of a user on a calendar day. -/
def usageKey (userId today : String) : String :=
  "usage:" ++ userId ++ ":" ++ today

/-- Observable outcome of one submitTurn request: HTTP status, the machine
readable error code when one is sent, the payload handed to the provider
adapter (none when no provider call is made), the state after the request
and whether the counter-expiry task was scheduled. -/
structure AskResult where
  status : Nat
  code : Option String
  payload : Option (List ServerMsg)
  state : SysState
  expiryScheduled : Bool

/-- POST of src/app/api/ask/route.ts. Steps in source order: schema
validation; verifyUser; unconditional counter increment once verification
passed; tier and limit resolution; the blocking quota check, which rejects
with 429 and code QUOTA_EXCEEDED without rolling the increment back and
before any provider work; expiry scheduling on the first increment of the
day key; then context assembly and the provider call. -/
def POSTask (req : AskReq) (today : String) (st : SysState) : AskResult :=
  if !(validRequest req) then
    ⟨400, some "INVALID_REQUEST_DATA", none, st, false⟩
  else
    let key := usageKey req.userId today
    let v := verifyUser req.userId st.cache st.store
    match v.result with
    | .error e =>
      ⟨if strContains e.message "Access Denied" then 403 else 500,
        none, none, ⟨v.cache, st.store, st.counters⟩, false⟩
    | .ok u =>
      let requestCount := st.counters key + 1
      let counters1 : Counters := fun k => if k = key then requestCount else st.counters k
      let st1 : SysState := ⟨v.cache, st.store, counters1⟩
      let userTier := jsOr u.tier "free"
      let dailyLimit : Int := u.customQuota.getD 50
      if userTier != "pro" && (requestCount : Int) > dailyLimit then
        ⟨429, some "QUOTA_EXCEEDED", none, st1, false⟩
      else
        ⟨200, none, some (coreMessages req.provider req.image req.messages),
          st1, requestCount == 1⟩

/-- A numeric or unbounded quota quantity, matching number | Unlimited in
the QuotaResponse interface. -/
inductive QVal
  | num (n : Int)
  | unlimited
deriving DecidableEq, Repr

/-- Body of the quota endpoint response. -/
inductive QuotaBody
  | err (msg : String)
  | ok (tier : String) (limit : QVal) (usage : Nat) (remaining : QVal) (isPro : Bool)
deriving DecidableEq, Repr

/-- GET of src/app/api/quota/route.ts: extract the userId query parameter
(absent or empty is falsy and yields 400), run verifyUser and the counter
read, normalize, compute limit and remaining, or classify a thrown error
as 403 when its message includes Access Denied or Unauthorized and as 500
otherwise. Returns the response and the state after the call. -/
def GETquota (userId? : Option String) (today : String) (st : SysState) :
    (Nat × QuotaBody) × SysState :=
  match userId? with
  | none => ((400, QuotaBody.err "User ID is required"), st)
  | some uid =>
    if uid = "" then
      ((400, QuotaBody.err "User ID is required"), st)
    else
      let v := verifyUser uid st.cache st.store
      let st1 : SysState := ⟨v.cache, st.store, st.counters⟩
      match v.result with
      | .error e =>
        ((if strContains e.message "Access Denied" || strContains e.message "Unauthorized"
            then 403 else 500, QuotaBody.err e.message), st1)
      | .ok u =>
        let usage := st.counters (usageKey uid today)
        let tier := jsOr u.tier "free"
        let isP := tier == "pro" || tier == "admin"
        let limit : QVal :=
          if isP then QVal.unlimited
          else
            match u.customQuota with
            | some q => QVal.num q
            | none => QVal.num 50
        let remaining : QVal :=
          match limit with
          | .unlimited => QVal.unlimited
          | .num l => QVal.num (max 0 (l - (usage : Int)))
        ((200, QuotaBody.ok tier limit usage remaining isP), st1)

/-- One client-side chat message of src/app/page.tsx: string content plus
an optional stored image reference. -/
structure ClientMsg where
  role : String
  content : String
  image : Option String
deriving DecidableEq, Repr

/-- The per-message step of the apiHistory construction in streamAnswer:
a past user message (index strictly before the last) with a truthy image
reference is sent as a text plus image block pair only when the reference
is a URL starting with http; everything else is sent with its plain string
content. The newly captured image is never placed in the history, it
travels in the separate image field of the request body. -/
def clientMap (n i : Nat) (m : ClientMsg) : ServerMsg :=
  if i + 1 < n && m.role == "user" && jsTruthy m.image then
    match m.image with
    | some img =>
      if jsStartsWith img "http" then
        ⟨m.role, Content.blocks [Block.text m.content, Block.image img]⟩
      else ⟨m.role, Content.str m.content⟩
    | none => ⟨m.role, Content.str m.content⟩
  else ⟨m.role, Content.str m.content⟩

/-- apiHistory of streamAnswer in src/app/page.tsx. -/
def clientApiHistory (hist : List ClientMsg) : List ServerMsg :=
  mapFrom (clientMap hist.length) 0 hist

/-- Empty profile cache. -/
def emptyCache : Cache := fun _ => none

/-- All usage counters absent. -/
def zeroCounters : Counters := fun _ => 0

/-- A Firestore users collection holding exactly one document. -/
def storeOf (id : String) (raw : RawProfile) : Store :=
  fun k => if k = id then some raw else none

/-- A counter table holding one key. -/
def countersOf (key : String) (v : Nat) : Counters :=
  fun k => if k = key then v else 0

lemma mapFrom_length {α β : Type} (f : Nat → α → β) (i : Nat) (l : List α) :
    (mapFrom f i l).length = l.length := by
  induction l generalizing i with
  | nil => rfl
  | cons a as ih => simp [mapFrom, ih]

lemma mapFrom_append {α β : Type} (f : Nat → α → β) (i : Nat) (l₁ l₂ : List α) :
    mapFrom f i (l₁ ++ l₂) = mapFrom f i l₁ ++ mapFrom f (i + l₁.length) l₂ := by
  induction l₁ generalizing i with
  | nil => simp [mapFrom]
  | cons a as ih =>
    have harith : i + 1 + as.length = i + (as.length + 1) := by omega
    simp only [List.cons_append, mapFrom, List.length_cons, List.append_eq]
    rw [ih, harith]

lemma mem_mapFrom {α β : Type} {f : Nat → α → β} {i : Nat} {l : List α} {b : β}
    (h : b ∈ mapFrom f i l) : ∃ j a, a ∈ l ∧ b = f j a := by
  induction l generalizing i with
  | nil => simp [mapFrom] at h
  | cons x xs ih =>
    simp only [mapFrom, List.mem_cons] at h
    rcases h with h | h
    · exact ⟨i, x, List.mem_cons_self x xs, h⟩
    · obtain ⟨j, a, ha, hb⟩ := ih h
      exact ⟨j, a, List.mem_cons_of_mem x ha, hb⟩

/-- Claim C7: the read-only quota operation never mutates the per-user
per-day usage counter: the counter table after a GET of the quota route
equals the counter table before it, for every caller and every state. -/
theorem C7_getQuota_never_mutates_counter (userId? : Option String) (today : String)
    (st : SysState) : ((GETquota userId? today st).2).counters = st.counters := by
  unfold GETquota
  cases userId? with
  | none => rfl
  | some uid =>
    by_cases h : uid = ""
    · simp [h]
    · simp only [h, if_false]
      split <;> rfl

/-- A cached profile whose status is pending: the shape of cache entry the
Hot Cache can hold for a user who is not approved. -/
def pendingCachedUser : UserData :=
  ⟨some "pending", some "user", some "free", some 50, some "u2"⟩

/-- A profile cache holding exactly the pending record of user u2. -/
def c2cache : Cache :=
  fun k => if k = profileKey "u2" then some pendingCachedUser else none

/-- A Firestore state agreeing with the cache: user u2 is pending. -/
def c2store : Store := storeOf "u2" ⟨some "pending", some "user", none, none⟩

/-- Claim C2: evaluation at the failing input. The Hot Cache holds a
CachedProfile for user u2 (a pending one), yet Authorize performs one
Profile Store read instead of none: the Access Denied thrown by the cached
permission check is swallowed by the catch that was written for Redis read
failures, and the code falls through to Firestore. The final decision is
still a denial here because the durable record agrees. -/
theorem C2_cached_profile_not_absorbed :
    (c2cache (profileKey "u2")).isSome = true ∧
    (verifyUser "u2" c2cache c2store).storeReads = 1 ∧
    (verifyUser "u2" c2cache c2store).result = Except.error AuthError.accessDenied :=
  ⟨rfl, rfl, rfl⟩

/-- A sixteen-turn history whose first turn is distinguishable from the
rest: a window of the most recent fifteen turns would drop it. -/
def hist16 : List ServerMsg :=
  ⟨"user", Content.str "first"⟩ :: List.replicate 15 ⟨"user", Content.str "later"⟩

/-- Claim C6: counterexample. The groq route receives the full sixteen
turn history unchanged, first turn included, not the most recent fifteen
turn suffix the claim describes. -/
theorem C6_counterexample :
    coreMessages "groq" none hist16 = hist16 ∧ hist16.length = 16 :=
  ⟨rfl, rfl⟩

/-- Claim C6 as amended: the context window is provider independent.
Every provider receives the full input history into per-provider
transformation (the slice of the last fifteen turns was removed from the
route); only the later blank-turn sanitization can drop turns. -/
theorem C6_amended_no_windowing (provider : String) (image : Option String)
    (msgs : List ServerMsg) : (transformAll provider image msgs).length = msgs.length := by
  unfold transformAll
  exact mapFrom_length _ _ _

/-- Claim C10: when authorization fails, the usage counter table is left
unchanged, because the increment runs only after verifyUser has returned
successfully. -/
theorem C10_auth_failure_preserves_counter (req : AskReq) (today : String) (st : SysState)
    (h : ∃ e, (verifyUser req.userId st.cache st.store).result = Except.error e) :
    (POSTask req today st).state.counters = st.counters := by
  obtain ⟨e, he⟩ := h
  unfold POSTask
  by_cases hv : validRequest req
  · simp [hv, he]
  · simp [hv]

/-- A submitTurn request by the pending user u2. -/
def c10req : AskReq := ⟨[⟨"user", Content.str "hi"⟩], "google", none, "u2"⟩

/-- The state seen by that request. -/
def c10st : SysState := ⟨c2cache, c2store, zeroCounters⟩

/-- Witness for claim C10: the pending user u2 fails authorization and the
counter table is untouched. -/
theorem C10_witness :
    (∃ e, (verifyUser "u2" c2cache c2store).result = Except.error e) ∧
    (POSTask c10req "2026-10-11" c10st).state.counters = zeroCounters :=
  ⟨⟨AuthError.accessDenied, rfl⟩,
   C10_auth_failure_preserves_counter c10req "2026-10-11" c10st
     ⟨AuthError.accessDenied, rfl⟩⟩

lemma POSTask_ok_shape (req : AskReq) (today : String) (st : SysState) (u : UserData)
    (hvr : validRequest req = true)
    (hok : (verifyUser req.userId st.cache st.store).result = Except.ok u) :
    POSTask req today st =
      (if jsOr u.tier "free" != "pro" &&
          ((st.counters (usageKey req.userId today) + 1 : Nat) : Int) > u.customQuota.getD 50
       then ⟨429, some "QUOTA_EXCEEDED", none,
              ⟨(verifyUser req.userId st.cache st.store).cache, st.store,
               fun k => if k = usageKey req.userId today
                 then st.counters (usageKey req.userId today) + 1 else st.counters k⟩, false⟩
       else ⟨200, none, some (coreMessages req.provider req.image req.messages),
              ⟨(verifyUser req.userId st.cache st.store).cache, st.store,
               fun k => if k = usageKey req.userId today
                 then st.counters (usageKey req.userId today) + 1 else st.counters k⟩,
              st.counters (usageKey req.userId today) + 1 == 1⟩) := by
  unfold POSTask
  simp only [hvr, Bool.not_true, Bool.false_eq_true, if_false, hok]

/-- Claim C1: for a free or default-tier authorized caller with effective
daily limit L (the custom quota when present, else 50), each submitTurn
increments the per-user per-day counter by one whether or not the turn is
admitted; the turn is admitted (status 200, provider payload built) iff
the post-increment count is at most L, and otherwise the request is
rejected with 429 and code QUOTA_EXCEEDED, with no provider payload built
and the increment left in place. -/
theorem C1_free_tier_quota (req : AskReq) (today : String) (st : SysState) (u : UserData)
    (hvr : validRequest req = true)
    (hok : (verifyUser req.userId st.cache st.store).result = Except.ok u)
    (ht : jsOr u.tier "free" = "free") :
    (POSTask req today st).state.counters (usageKey req.userId today)
        = st.counters (usageKey req.userId today) + 1 ∧
    (((st.counters (usageKey req.userId today) + 1 : Nat) : Int) ≤ u.customQuota.getD 50 →
      (POSTask req today st).status = 200 ∧
      (POSTask req today st).payload = some (coreMessages req.provider req.image req.messages)) ∧
    (((st.counters (usageKey req.userId today) + 1 : Nat) : Int) > u.customQuota.getD 50 →
      (POSTask req today st).status = 429 ∧
      (POSTask req today st).code = some "QUOTA_EXCEEDED" ∧
      (POSTask req today st).payload = none) := by
  have hfree : (jsOr u.tier "free" != "pro") = true := by rw [ht]; rfl
  rw [POSTask_ok_shape req today st u hvr hok]
  by_cases hgt : ((st.counters (usageKey req.userId today) + 1 : Nat) : Int)
      > u.customQuota.getD 50
  · rw [if_pos (by simp [hfree]; omega)]
    exact ⟨by simp, fun hle => absurd hgt (by omega), fun _ => ⟨rfl, rfl, rfl⟩⟩
  · rw [if_neg (by simp [hfree]; omega)]
    exact ⟨by simp, fun _ => ⟨rfl, rfl⟩, fun h => absurd h hgt⟩

/-- Firestore record of the free user u1 with a custom quota of 2. -/
def c1raw : RawProfile := ⟨some "approved", some "user", some "free", some 2⟩

/-- The record verifyUser returns for u1. -/
def c1user : UserData := ⟨some "approved", some "user", some "free", some 2, some "u1"⟩

/-- A submitTurn request by u1. -/
def c1req : AskReq := ⟨[⟨"user", Content.str "hi"⟩], "google", none, "u1"⟩

/-- State in which u1 has already consumed 2 turns today. -/
def c1st : SysState :=
  ⟨emptyCache, storeOf "u1" c1raw, countersOf (usageKey "u1" "2026-10-11") 2⟩

/-- Witness for claim C1: the third back-to-back turn of a free user with
custom quota 2 is rejected with 429 and the rejected attempt still counts
in the ledger. -/
theorem C1_witness :
    validRequest c1req = true ∧
    (verifyUser c1req.userId c1st.cache c1st.store).result = Except.ok c1user ∧
    jsOr c1user.tier "free" = "free" ∧
    ((c1st.counters (usageKey "u1" "2026-10-11") + 1 : Nat) : Int) > c1user.customQuota.getD 50 ∧
    ((POSTask c1req "2026-10-11" c1st).status = 429 ∧
      (POSTask c1req "2026-10-11" c1st).code = some "QUOTA_EXCEEDED" ∧
      (POSTask c1req "2026-10-11" c1st).payload = none) ∧
    (POSTask c1req "2026-10-11" c1st).state.counters (usageKey "u1" "2026-10-11")
      = c1st.counters (usageKey "u1" "2026-10-11") + 1 :=
  ⟨by decide, by rfl, by rfl, by decide,
   (C1_free_tier_quota c1req "2026-10-11" c1st c1user (by decide) (by rfl) (by rfl)).2.2
     (by decide),
   (C1_free_tier_quota c1req "2026-10-11" c1st c1user (by decide) (by rfl) (by rfl)).1⟩

/-- Firestore record of the admin u3: tier admin, custom quota 2. -/
def c3raw : RawProfile := ⟨some "approved", some "admin", some "admin", some 2⟩

/-- A submitTurn request by u3. -/
def c3req : AskReq := ⟨[⟨"user", Content.str "hi"⟩], "google", none, "u3"⟩

/-- State in which u3 has already consumed 5 turns today. -/
def c3st : SysState :=
  ⟨emptyCache, storeOf "u3" c3raw, countersOf (usageKey "u3" "2026-10-11") 5⟩

/-- Claim C3: counterexample. An authorized admin-tier caller over the
limit is not always allowed (the request is rejected with 429) and the
counter is not left unmutated (it is bumped from 5 to 6): the route only
exempts the exact tier string pro from the blocking check and increments
the counter for every verified caller. -/
theorem C3_counterexample :
    (verifyUser c3req.userId c3st.cache c3st.store).result
      = Except.ok ⟨some "approved", some "admin", some "admin", some 2, some "u3"⟩ ∧
    (POSTask c3req "2026-10-11" c3st).status = 429 ∧
    c3st.counters (usageKey "u3" "2026-10-11") = 5 ∧
    (POSTask c3req "2026-10-11" c3st).state.counters (usageKey "u3" "2026-10-11") = 6 :=
  ⟨rfl, rfl, rfl, rfl⟩

/-- Claim C3 as amended: the Charge step increments the counter for every
authorized caller, pro and admin included; a pro-tier caller is never
blocked by the quota check (always allowed), while an admin-tier caller is
blocked exactly like a free-tier one, when the post-increment count
exceeds the effective limit. -/
theorem C3_amended_charge (req : AskReq) (today : String) (st : SysState) (u : UserData)
    (hvr : validRequest req = true)
    (hok : (verifyUser req.userId st.cache st.store).result = Except.ok u) :
    (POSTask req today st).state.counters (usageKey req.userId today)
        = st.counters (usageKey req.userId today) + 1 ∧
    (jsOr u.tier "free" = "pro" →
      (POSTask req today st).status = 200 ∧
      (POSTask req today st).payload = some (coreMessages req.provider req.image req.messages)) ∧
    (jsOr u.tier "free" = "admin" →
      ((POSTask req today st).status = 429 ↔
        ((st.counters (usageKey req.userId today) + 1 : Nat) : Int) > u.customQuota.getD 50)) := by
  rw [POSTask_ok_shape req today st u hvr hok]
  refine ⟨by split <;> simp, ?_, ?_⟩
  · intro hp
    have hb : (jsOr u.tier "free" != "pro") = false := by rw [hp]; rfl
    rw [hb]
    simp
  · intro ha
    have hadm : (jsOr u.tier "free" != "pro") = true := by rw [ha]; rfl
    by_cases hgt : ((st.counters (usageKey req.userId today) + 1 : Nat) : Int)
        > u.customQuota.getD 50
    · rw [if_pos (by simp [hadm]; omega)]
      exact iff_of_true rfl hgt
    · rw [if_neg (by simp [hadm]; omega)]
      dsimp only
      exact iff_of_false (by decide) hgt

/-- Firestore record of the pro user u4 with a leftover custom quota 2. -/
def c3proRaw : RawProfile := ⟨some "approved", some "user", some "pro", some 2⟩

/-- The record verifyUser returns for u4. -/
def c3proUser : UserData := ⟨some "approved", some "user", some "pro", some 2, some "u4"⟩

/-- A submitTurn request by u4. -/
def c3wreq : AskReq := ⟨[⟨"user", Content.str "hi"⟩], "groq", none, "u4"⟩

/-- State in which u4 has already consumed 100 turns today. -/
def c3wst : SysState :=
  ⟨emptyCache, storeOf "u4" c3proRaw, countersOf (usageKey "u4" "2026-10-11") 100⟩

/-- Witness for the amended claim C3: a pro user far over any numeric
limit is still admitted, and the counter is still incremented. -/
theorem C3_witness :
    validRequest c3wreq = true ∧
    (verifyUser c3wreq.userId c3wst.cache c3wst.store).result = Except.ok c3proUser ∧
    jsOr c3proUser.tier "free" = "pro" ∧
    ((POSTask c3wreq "2026-10-11" c3wst).status = 200 ∧
      (POSTask c3wreq "2026-10-11" c3wst).payload
        = some (coreMessages "groq" none c3wreq.messages)) ∧
    (POSTask c3wreq "2026-10-11" c3wst).state.counters (usageKey "u4" "2026-10-11")
      = c3wst.counters (usageKey "u4" "2026-10-11") + 1 :=
  ⟨by decide, by rfl, by rfl,
   (C3_amended_charge c3wreq "2026-10-11" c3wst c3proUser (by decide) (by rfl)).2.1 (by rfl),
   (C3_amended_charge c3wreq "2026-10-11" c3wst c3proUser (by decide) (by rfl)).1⟩

lemma GETquota_ok_shape (uid today : String) (st : SysState) (u : UserData)
    (hne : uid ≠ "")
    (hok : (verifyUser uid st.cache st.store).result = Except.ok u) :
    (GETquota (some uid) today st).1 =
      (200, QuotaBody.ok (jsOr u.tier "free")
        (if jsOr u.tier "free" == "pro" || jsOr u.tier "free" == "admin" then QVal.unlimited
         else match u.customQuota with
           | some q => QVal.num q
           | none => QVal.num 50)
        (st.counters (usageKey uid today))
        (match (if jsOr u.tier "free" == "pro" || jsOr u.tier "free" == "admin" then QVal.unlimited
                else match u.customQuota with
                  | some q => QVal.num q
                  | none => QVal.num 50) with
         | .unlimited => QVal.unlimited
         | .num l => QVal.num (max 0 (l - (st.counters (usageKey uid today) : Int))))
        (jsOr u.tier "free" == "pro" || jsOr u.tier "free" == "admin")) := by
  unfold GETquota
  simp only [if_neg hne, hok]

lemma GETquota_error_shape (uid today : String) (st : SysState) (e : AuthError)
    (hne : uid ≠ "")
    (he : (verifyUser uid st.cache st.store).result = Except.error e) :
    (GETquota (some uid) today st).1 =
      (if strContains e.message "Access Denied" || strContains e.message "Unauthorized"
         then 403 else 500,
       QuotaBody.err e.message) := by
  unfold GETquota
  simp only [if_neg hne, he]

lemma POSTask_error_shape (req : AskReq) (today : String) (st : SysState) (e : AuthError)
    (hvr : validRequest req = true)
    (he : (verifyUser req.userId st.cache st.store).result = Except.error e) :
    POSTask req today st =
      ⟨if strContains e.message "Access Denied" then 403 else 500, none, none,
       ⟨(verifyUser req.userId st.cache st.store).cache, st.store, st.counters⟩, false⟩ := by
  unfold POSTask
  simp only [hvr, Bool.not_true, Bool.false_eq_true, if_false, he]

lemma fetchFromStore_error_cases (uid : String) (c : Cache) (s : Store) (e : AuthError)
    (he : (fetchFromStore uid c s).result = Except.error e) :
    e = AuthError.accessDenied ∨ e = AuthError.userNotFound := by
  unfold fetchFromStore at he
  cases hs : s uid with
  | none =>
    rw [hs] at he
    dsimp only at he
    simp only [Except.error.injEq] at he
    exact Or.inr he.symm
  | some raw =>
    rw [hs] at he
    dsimp only at he
    by_cases hal : isAllowed raw.status raw.role
    · rw [if_pos hal] at he
      simp at he
    · rw [if_neg hal] at he
      simp only [Except.error.injEq] at he
      exact Or.inl he.symm

lemma verifyUser_error_cases (uid : String) (c : Cache) (s : Store) (e : AuthError)
    (hne : uid ≠ "")
    (he : (verifyUser uid c s).result = Except.error e) :
    e = AuthError.accessDenied ∨ e = AuthError.userNotFound := by
  unfold verifyUser at he
  rw [if_neg hne] at he
  cases hcc : c (profileKey uid) with
  | none =>
    rw [hcc] at he
    dsimp only at he
    exact fetchFromStore_error_cases uid c s e he
  | some cached =>
    rw [hcc] at he
    dsimp only at he
    by_cases hal : isAllowed cached.status cached.role
    · rw [if_pos hal] at he
      simp at he
    · rw [if_neg hal] at he
      exact fetchFromStore_error_cases uid c s e he

/-- Claim C8: for a bounded-tier caller the quota GET reports the limit as
the custom quota when present and 50 otherwise, usage from the counter,
and remaining = max(0, limit - usage), which is never negative even when
usage exceeds the limit; pro and admin tiers report an unbounded limit and
remaining. -/
theorem C8_quota_arithmetic (uid today : String) (st : SysState) (u : UserData)
    (hne : uid ≠ "")
    (hok : (verifyUser uid st.cache st.store).result = Except.ok u) :
    ((jsOr u.tier "free" = "pro" ∨ jsOr u.tier "free" = "admin") →
      (GETquota (some uid) today st).1 =
        (200, QuotaBody.ok (jsOr u.tier "free") QVal.unlimited
          (st.counters (usageKey uid today)) QVal.unlimited true)) ∧
    ((jsOr u.tier "free" ≠ "pro" ∧ jsOr u.tier "free" ≠ "admin") →
      (GETquota (some uid) today st).1 =
        (200, QuotaBody.ok (jsOr u.tier "free") (QVal.num (u.customQuota.getD 50))
          (st.counters (usageKey uid today))
          (QVal.num (max 0 (u.customQuota.getD 50 - (st.counters (usageKey uid today) : Int))))
          false) ∧
      (0 : Int) ≤ max 0 (u.customQuota.getD 50 - (st.counters (usageKey uid today) : Int))) := by
  rw [GETquota_ok_shape uid today st u hne hok]
  constructor
  · intro hp
    have hb : (jsOr u.tier "free" == "pro" || jsOr u.tier "free" == "admin") = true := by
      rcases hp with h | h <;> rw [h] <;> rfl
    rw [hb]
    rfl
  · rintro ⟨h1, h2⟩
    have hb : (jsOr u.tier "free" == "pro" || jsOr u.tier "free" == "admin") = false := by
      simp [h1, h2]
    rw [hb]
    refine ⟨?_, le_max_left 0 _⟩
    cases hc : u.customQuota with
    | some q => simp [hc]
    | none => simp [hc]

/-- Firestore record of the free user u5 with no stored tier or quota. -/
def c8raw : RawProfile := ⟨some "approved", some "user", none, none⟩

/-- The record verifyUser returns for u5 after defaulting. -/
def c8user : UserData := ⟨some "approved", some "user", some "free", some 50, some "u5"⟩

/-- State in which u5 somehow consumed 60 turns, over the limit of 50. -/
def c8st : SysState :=
  ⟨emptyCache, storeOf "u5" c8raw, countersOf (usageKey "u5" "2026-10-11") 60⟩

/-- Witness for claim C8: a free user with usage 60 over the default limit
50 is reported with remaining 0, not a negative number. -/
theorem C8_witness :
    "u5" ≠ "" ∧
    (verifyUser "u5" c8st.cache c8st.store).result = Except.ok c8user ∧
    (jsOr c8user.tier "free" ≠ "pro" ∧ jsOr c8user.tier "free" ≠ "admin") ∧
    (GETquota (some "u5") "2026-10-11" c8st).1 =
      (200, QuotaBody.ok "free" (QVal.num 50) 60 (QVal.num 0) false) :=
  ⟨by decide, by rfl, by decide,
   ((C8_quota_arithmetic "u5" "2026-10-11" c8st c8user (by decide) (by rfl)).2
     (by decide)).1⟩

/-- Claim C9: getQuota fails with the same taxonomy as submitTurn. For any
request whose authorization fails, the HTTP status of the quota GET equals
the status of the ask POST for the same caller and state; an unapproved or
banned profile yields 403 (the Forbidden class) in both, and a missing or
empty userId yields 400 (the schema-level Unauthenticated rejection) in
both. -/
theorem C9_taxonomy_agreement (req : AskReq) (today : String) (st : SysState)
    (hm : req.messages.all validMsg = true) (hp : validProvider req.provider = true)
    (hfail : ∃ e, (verifyUser req.userId st.cache st.store).result = Except.error e) :
    (GETquota (some req.userId) today st).1.1 = (POSTask req today st).status ∧
    ((verifyUser req.userId st.cache st.store).result = Except.error AuthError.accessDenied →
      (GETquota (some req.userId) today st).1.1 = 403 ∧ (POSTask req today st).status = 403) ∧
    (req.userId = "" →
      (GETquota (some req.userId) today st).1.1 = 400 ∧ (POSTask req today st).status = 400) := by
  obtain ⟨e, he⟩ := hfail
  by_cases hid : req.userId = ""
  · have hnoid : (verifyUser req.userId st.cache st.store).result
        = Except.error AuthError.noUserId := by
      rw [hid]
      rfl
    have hq : (GETquota (some req.userId) today st).1.1 = 400 := by
      unfold GETquota
      dsimp only
      rw [if_pos hid]
    have ha : (POSTask req today st).status = 400 := by
      have hv : validRequest req = false := by
        simp [validRequest, hid]
      unfold POSTask
      rw [hv]
      rfl
    refine ⟨hq.trans ha.symm, fun hacc => ?_, fun _ => ⟨hq, ha⟩⟩
    rw [hnoid] at hacc
    simp at hacc
  · have hvr : validRequest req = true := by
      simp [validRequest, hm, hp, hid]
    have hq := GETquota_error_shape req.userId today st e hid he
    have ha := POSTask_error_shape req today st e hvr he
    rcases verifyUser_error_cases req.userId st.cache st.store e hid he with rfl | rfl
    · refine ⟨?_, fun _ => ?_, fun h => absurd h hid⟩
      · rw [ha]
        simp only [hq]
        rfl
      · constructor
        · simp only [hq]
          rfl
        · rw [ha]
          rfl
    · refine ⟨?_, fun hacc => ?_, fun h => absurd h hid⟩
      · rw [ha]
        simp only [hq]
        rfl
      · rw [he] at hacc
        simp at hacc

/-- Witness for claim C9: the pending user u2 gets 403 from both the quota
GET and the ask POST, and the two statuses agree. -/
theorem C9_witness :
    c10req.messages.all validMsg = true ∧
    validProvider c10req.provider = true ∧
    (∃ e, (verifyUser c10req.userId c10st.cache c10st.store).result = Except.error e) ∧
    (GETquota (some c10req.userId) "2026-10-11" c10st).1.1
      = (POSTask c10req "2026-10-11" c10st).status ∧
    ((GETquota (some "u2") "2026-10-11" c10st).1.1 = 403 ∧
     (POSTask c10req "2026-10-11" c10st).status = 403) :=
  ⟨by decide, by decide, ⟨AuthError.accessDenied, by rfl⟩,
   (C9_taxonomy_agreement c10req "2026-10-11" c10st (by decide) (by decide)
     ⟨AuthError.accessDenied, by rfl⟩).1,
   (C9_taxonomy_agreement c10req "2026-10-11" c10st (by decide) (by decide)
     ⟨AuthError.accessDenied, by rfl⟩).2.1 (by rfl)⟩

/-- Claim C5: sanitization runs after provider-specific transformation and
drops exactly the turns whose transformed content is empty, whitespace
only, or an empty block list. First conjunct: the filter predicate rejects
a message iff its content is a whitespace-only (possibly empty) string or
an empty block list. Second and third: the output is exactly the
transformed turns the predicate keeps. Fourth: the concrete two-turn
scenario. Fifth: the same turn (an image-only block list) survives for
google while being filtered out for groq, whose transformation flattens it
to an empty string. -/
theorem C5_sanitization_after_transform :
    (∀ m : ServerMsg, keepMsg m = false ↔
      ((∃ s, m.content = Content.str s ∧ jsTrim s = "") ∨ m.content = Content.blocks [])) ∧
    (∀ (provider : String) (image : Option String) (msgs : List ServerMsg) (m : ServerMsg),
        m ∈ coreMessages provider image msgs → keepMsg m = true) ∧
    (∀ (provider : String) (image : Option String) (msgs : List ServerMsg) (m : ServerMsg),
        m ∈ transformAll provider image msgs → keepMsg m = true →
          m ∈ coreMessages provider image msgs) ∧
    coreMessages "google" none
        [⟨"user", Content.str "   "⟩, ⟨"user", Content.str "real"⟩]
      = [⟨"user", Content.str "real"⟩] ∧
    (coreMessages "google" none
        [⟨"user", Content.blocks [Block.image "http://x"]⟩, ⟨"user", Content.str "q"⟩]
      = [⟨"user", Content.blocks [Block.image "http://x"]⟩, ⟨"user", Content.str "q"⟩] ∧
     coreMessages "groq" none
        [⟨"user", Content.blocks [Block.image "http://x"]⟩, ⟨"user", Content.str "q"⟩]
      = [⟨"user", Content.str "q"⟩]) := by
  refine ⟨?_, ?_, ?_, by rfl, by rfl, by rfl⟩
  · intro m
    obtain ⟨r, c⟩ := m
    cases c with
    | str s =>
      constructor
      · intro h
        have hsw : s = "" ∨ jsTrim s = "" := by
          by_cases h1 : s = ""
          · exact Or.inl h1
          · by_cases h2 : jsTrim s = ""
            · exact Or.inr h2
            · exfalso
              have hk : keepMsg ⟨r, Content.str s⟩ = true := by
                simp [keepMsg, h1, h2]
              rw [hk] at h
              cases h
        rcases hsw with h1 | h2
        · exact Or.inl ⟨s, rfl, by rw [h1]; rfl⟩
        · exact Or.inl ⟨s, rfl, h2⟩
      · rintro (⟨t, ht, htr⟩ | hb)
        · cases ht
          simp [keepMsg, htr]
        · cases hb
    | blocks bs =>
      constructor
      · intro h
        refine Or.inr ?_
        have hbs : bs = [] := by
          cases bs with
          | nil => rfl
          | cons b bst =>
            exfalso
            have hk : keepMsg ⟨r, Content.blocks (b :: bst)⟩ = true := rfl
            rw [hk] at h
            cases h
        rw [hbs]
      · rintro (⟨t, ht, htr⟩ | hb)
        · cases ht
        · cases hb
          rfl
  · intro p img msgs m hm
    exact List.of_mem_filter hm
  · intro p img msgs m hm hk
    exact List.mem_filter.mpr ⟨hm, hk⟩

/-- Witness for claim C5: the well-formed second turn passes the filter
and is a member of the sanitized google payload of the scenario history. -/
theorem C5_witness :
    keepMsg ⟨"user", Content.str "real"⟩ = true ∧
    (⟨"user", Content.str "real"⟩ : ServerMsg) ∈
      coreMessages "google" none
        [⟨"user", Content.str "   "⟩, ⟨"user", Content.str "real"⟩] :=
  ⟨C5_sanitization_after_transform.2.1 "google" none
     [⟨"user", Content.str "   "⟩, ⟨"user", Content.str "real"⟩]
     ⟨"user", Content.str "real"⟩ (by decide),
   C5_sanitization_after_transform.2.2.1 "google" none
     [⟨"user", Content.str "   "⟩, ⟨"user", Content.str "real"⟩]
     ⟨"user", Content.str "real"⟩ (by decide) (by rfl)⟩

lemma transformMsg_groq_is_str (image : Option String) (n i : Nat) (m : ServerMsg) :
    ∃ s, (transformMsg "groq" image n i m).content = Content.str s := by
  obtain ⟨r, c⟩ := m
  cases c with
  | str s => exact ⟨s, rfl⟩
  | blocks bs =>
    exact ⟨String.intercalate "\n" ((bs.filter Block.isText).map Block.textOf), rfl⟩

lemma transformMsg_multimodal_passthrough (p : String) (img : String) (n i : Nat)
    (m : ServerMsg) (hp : p = "google" ∨ p = "deepseek") (hi : i + 1 ≠ n) :
    transformMsg p (some img) n i m = m := by
  rcases hp with rfl | rfl <;>
  · unfold transformMsg
    simp [hi]

lemma mapFrom_multimodal_passthrough (p : String) (img : String) (n : Nat)
    (hp : p = "google" ∨ p = "deepseek") :
    ∀ (i : Nat) (ms : List ServerMsg), i + ms.length < n →
      mapFrom (transformMsg p (some img) n) i ms = ms := by
  intro i ms
  induction ms generalizing i with
  | nil => intro _; rfl
  | cons a as ih =>
    intro hlt
    simp only [List.length_cons] at hlt
    simp only [mapFrom]
    rw [transformMsg_multimodal_passthrough p img n i a hp (by omega), ih (i + 1) (by omega)]

/-- The message built by the ask route when the newly supplied image is
attached to the final user turn for a multimodal provider: a text block
(the joined user text, or a single space when it is empty) followed by the
image block carrying the new image payload. -/
def attachImage (m : ServerMsg) (img : String) : ServerMsg :=
  ⟨"user", Content.blocks
    [Block.text (jsOrStr (contentText m.content) " "), Block.image img]⟩

lemma transformAll_attach_last (p : String) (img : String) (ms : List ServerMsg)
    (mlast : ServerMsg) (hp : p = "google" ∨ p = "deepseek") (himg : img ≠ "")
    (hrole : mlast.role = "user") :
    transformAll p (some img) (ms ++ [mlast]) = ms ++ [attachImage mlast img] := by
  unfold transformAll
  rw [mapFrom_append,
      mapFrom_multimodal_passthrough p img (ms ++ [mlast]).length hp 0 ms (by simp)]
  congr 1
  show [transformMsg p (some img) (ms ++ [mlast]).length (0 + ms.length) mlast]
      = [attachImage mlast img]
  rcases hp with rfl | rfl <;>
  · simp [transformMsg, attachImage, himg, hrole, List.length_append]

lemma keepMsg_attachImage (m : ServerMsg) (img : String) :
    keepMsg (attachImage m img) = true := rfl

lemma coreMessages_attach_last (p : String) (img : String) (ms : List ServerMsg)
    (mlast : ServerMsg) (hp : p = "google" ∨ p = "deepseek") (himg : img ≠ "")
    (hrole : mlast.role = "user") :
    coreMessages p (some img) (ms ++ [mlast])
      = ms.filter keepMsg ++ [attachImage mlast img] := by
  unfold coreMessages
  rw [transformAll_attach_last p img ms mlast hp himg hrole, List.filter_append]
  congr 1

lemma clientMap_image_blocks (n i : Nat) (m : ClientMsg) (bs : List Block)
    (hc : (clientMap n i m).content = Content.blocks bs) :
    ∃ img, m.image = some img ∧ jsStartsWith img "http" = true ∧
      bs = [Block.text m.content, Block.image img] := by
  unfold clientMap at hc
  by_cases h1 : (decide (i + 1 < n) && m.role == "user" && jsTruthy m.image) = true
  · rw [if_pos h1] at hc
    cases him : m.image with
    | none =>
      rw [him] at hc
      cases hc
    | some img =>
      rw [him] at hc
      dsimp only at hc
      by_cases h2 : jsStartsWith img "http" = true
      · rw [if_pos h2] at hc
        injection hc with hbs
        exact ⟨img, rfl, h2, hbs.symm⟩
      · rw [if_neg h2] at hc
        cases hc
  · rw [if_neg h1] at hc
    cases hc

/-- Claim C4: multimodal gating. First conjunct: every message of a groq
payload has plain string content, so the text-only provider never receives
an image block, newly supplied image or not. Second conjunct: for the
multimodal providers google and deepseek, when the final turn is a user
turn and an image is supplied, the transformation leaves every earlier
turn unchanged and attaches the image block exactly to the final user
turn, and in the sanitized payload the only message carrying the new image
block is that final attached message, provided the raw payload does not
already occur in the history (which a newly supplied image does not).
Third conjunct: the client forwards an image block for a historical turn
only in URL form, a string starting with http, never the raw inline
payload captured for the newest turn. -/
theorem C4_multimodal_attachment :
    (∀ (image : Option String) (msgs : List ServerMsg) (m : ServerMsg),
        m ∈ coreMessages "groq" image msgs → ∃ s, m.content = Content.str s) ∧
    (∀ (p : String) (img : String) (ms : List ServerMsg) (mlast : ServerMsg),
        (p = "google" ∨ p = "deepseek") → img ≠ "" → mlast.role = "user" →
        transformAll p (some img) (ms ++ [mlast]) = ms ++ [attachImage mlast img] ∧
        coreMessages p (some img) (ms ++ [mlast])
          = ms.filter keepMsg ++ [attachImage mlast img] ∧
        ((∀ m ∈ ms, ∀ bs, m.content = Content.blocks bs → Block.image img ∉ bs) →
          ∀ m ∈ coreMessages p (some img) (ms ++ [mlast]),
            ∀ bs, m.content = Content.blocks bs → Block.image img ∈ bs →
              m = attachImage mlast img)) ∧
    (∀ (hist : List ClientMsg) (m : ServerMsg), m ∈ clientApiHistory hist →
        ∀ bs, m.content = Content.blocks bs → ∀ s, Block.image s ∈ bs →
          jsStartsWith s "http" = true) := by
  refine ⟨?_, ?_, ?_⟩
  · intro image msgs m hm
    obtain ⟨j, a, _, rfl⟩ := mem_mapFrom (List.mem_of_mem_filter hm)
    exact transformMsg_groq_is_str image msgs.length j a
  · intro p img ms mlast hp himg hrole
    refine ⟨transformAll_attach_last p img ms mlast hp himg hrole,
            coreMessages_attach_last p img ms mlast hp himg hrole, ?_⟩
    intro hclean m hm bs hbs hin
    rw [coreMessages_attach_last p img ms mlast hp himg hrole] at hm
    rcases List.mem_append.mp hm with h | h
    · exact absurd hin (hclean m (List.mem_of_mem_filter h) bs hbs)
    · exact List.mem_singleton.mp h
  · intro hist m hm bs hbs s hs
    obtain ⟨j, a, _, rfl⟩ := mem_mapFrom hm
    obtain ⟨img, _, hstart, hbs2⟩ := clientMap_image_blocks hist.length j a bs hbs
    subst hbs2
    simp only [List.mem_cons, List.mem_singleton, List.not_mem_nil, or_false] at hs
    rcases hs with hs | hs
    · cases hs
    · injection hs with hsi
      rw [hsi]
      exact hstart

/-- Witness for claim C4: a groq payload built from a turn carrying a new
image still has string content only; google attaches the raw image block
to the final user turn while the assistant turn before it is unchanged;
and the forwarded historical image reference starts with http. -/
theorem C4_witness :
    ((⟨"user", Content.str "hi"⟩ : ServerMsg) ∈
        coreMessages "groq" (some "RAWB64") [⟨"user", Content.str "hi"⟩] ∧
      ∃ s, (⟨"user", Content.str "hi"⟩ : ServerMsg).content = Content.str s) ∧
    transformAll "google" (some "RAWB64")
        ([⟨"assistant", Content.str "prev"⟩] ++ [⟨"user", Content.str "q"⟩])
      = [⟨"assistant", Content.str "prev"⟩]
          ++ [attachImage ⟨"user", Content.str "q"⟩ "RAWB64"] ∧
    jsStartsWith "http://pic" "http" = true :=
  ⟨⟨by decide,
    C4_multimodal_attachment.1 (some "RAWB64") [⟨"user", Content.str "hi"⟩]
      ⟨"user", Content.str "hi"⟩ (by decide)⟩,
   (C4_multimodal_attachment.2.1 "google" "RAWB64" [⟨"assistant", Content.str "prev"⟩]
      ⟨"user", Content.str "q"⟩ (Or.inl rfl) (by decide) rfl).1,
   C4_multimodal_attachment.2.2
      [⟨"user", "q1", some "http://pic"⟩, ⟨"user", "q2", none⟩]
      ⟨"user", Content.blocks [Block.text "q1", Block.image "http://pic"]⟩ (by decide)
      [Block.text "q1", Block.image "http://pic"] rfl "http://pic" (by decide)⟩
